import Mathlib

/-!
Verification development for the iPSC voltage-protocol simulation engine
(`paci_2018.py`).  The Paci2018 cardiac-cell model, its protocol drivers and
its run façade are shallowly embedded over the rationals.  The transcendental
primitives used by the source (`math.exp`, `math.log`, `math.sqrt` and the
non-integer power `**`) are abstracted into an `Env` record of rational
functions, so that every definition stays computable and every structural
property (vector shape, gate-relaxation form, current balance, driver
behaviour, façade control flow) is quantified over an arbitrary environment.
-/

namespace Paci2018

/-- Abstract numeric environment standing for the transcendental primitives
of the source (`np.exp`/`math.log`/`math.sqrt` and real exponentiation
`x ** a` for non-integer `a`). -/
structure Env where
  exp : ℚ → ℚ
  log : ℚ → ℚ
  sqrt : ℚ → ℚ
  rpow : ℚ → ℚ → ℚ

/-! ### Model constants (class attributes of `PaciModel`) -/

def vmax_up_millimolar_per_second : ℚ := 0.5113
def g_irel_max_millimolar_per_second : ℚ := 62.5434
def ry_ra_1_micromolar : ℚ := 0.05354
def ry_ra_2_micromolar : ℚ := 0.0488
def ry_rahalf_micromolar : ℚ := 0.02427
def ry_rohalf_micromolar : ℚ := 0.01042
def ry_rchalf_micromolar : ℚ := 0.00144
def k_na_ca_a_per_f : ℚ := 3917.0463
def p_na_k_a_per_f : ℚ := 2.6351
def k_up_millimolar : ℚ := 3.1928e-4
def v_leak_per_second : ℚ := 4.7279e-4
def alpha_in_i_na_ca : ℚ := 2.5371

def f_coulomb_per_mole : ℚ := 96485.3415
def r_joule_per_mole_kelvin : ℚ := 8.314472
def t_kelvin : ℚ := 310.0

def v_sr_micrometer_cube : ℚ := 583.73
def vc_micrometer_cube : ℚ := 8800.0
def cm_farad : ℚ := 9.87109e-11

def nao_millimolar : ℚ := 151.0
def ko_millimolar : ℚ := 5.4
def cao_millimolar : ℚ := 1.8
def ki_millimolar : ℚ := 150.0

def t_drug_application : ℚ := 10000
def i_na_f_red_med : ℚ := 1
def i_ca_l_red_med : ℚ := 1
def i_kr_red_med : ℚ := 1
def i_ks_red_med : ℚ := 1

/-- The `y_initial` vector: the full physiological initial condition vector. -/
def y_initial : List ℚ :=
  [-0.0749228904740065, 0.0936532528714175, 3.79675694306440e-5,
   0, 8.25220533963093e-5, 0.741143500777858, 0.999983958619179,
   0.997742015033076, 0.266113517200784, 0.434907203275640,
   0.0314334976383401, 0.745356534740988, 0.0760523580322096,
   0.0995891726023512, 0.0249102482276486, 0.841714924246004,
   0.00558005376429710, 8.64821066193476, 0.00225383437957339,
   0.0811507312565017, 0.0387066722172937, 0.0260449185736275,
   0.0785849084330126]

/-- The `y_initial_zero` vector: the zero-biased initial condition vector. -/
def y_initial_zero : List ℚ :=
  [-0.070, 0.32, 0.0002, 0, 0, 1, 1, 1, 0, 1, 0, 0.75, 0.75,
   0, 0.1, 1, 0, 9.2, 0, 0.75, 0.3, 0.9, 0.1]

/-! ### Parameter dictionary (Python `dict` of tunable parameters) -/

/-- A Python `dict` from parameter name to value, as an insertion-ordered
association list. -/
abbrev Dict := List (String × ℚ)

/-- Python dict assignment `d[k] = v`: replace the binding of `k` if it
exists, otherwise append a new binding. -/
def dict_set : Dict → String → ℚ → Dict
  | [], k, v => [(k, v)]
  | (k', v') :: rest, k, v =>
      if k' = k then (k, v) :: rest else (k', v') :: dict_set rest k v

/-- Python `d.update(new)`: assign every binding of `new`, in order, into `d`. -/
def dict_update (d new : Dict) : Dict :=
  new.foldl (fun acc kv => dict_set acc kv.1 kv.2) d

/-- Dictionary key lookup. -/
def dict_lookup : Dict → String → Option ℚ
  | [], _ => none
  | (k', v) :: rest, k => if k' = k then some v else dict_lookup rest k

/-- Access `self.default_parameters[name]` (every access in the source uses a
key that is present; `0` is a junk value standing for Python's `KeyError`). -/
def getParam (p : Dict) (k : String) : ℚ :=
  (dict_lookup p k).getD 0

/-- The dict literal assigned to `self.default_parameters` in
`PaciModel.__init__`. -/
def default_parameters : Dict :=
  [("g_na", 3671.2302), ("g_ca_l", 8.635702e-5),
   ("g_f_s", 30.10312), ("g_ks_s", 2.041),
   ("g_kr_s", 29.8667), ("g_k1_s", 28.1492),
   ("g_p_ca", 0.4125), ("g_b_na", 0.95),
   ("g_b_ca", 0.727272),
   ("g_na_lmax", 17.25)]

/-! ### Nernst potentials -/

def e_na (env : Env) (y : Fin 23 → ℚ) : ℚ :=
  r_joule_per_mole_kelvin * t_kelvin / f_coulomb_per_mole *
    env.log (nao_millimolar / y 17)

def e_ca (env : Env) (y : Fin 23 → ℚ) : ℚ :=
  0.5 * r_joule_per_mole_kelvin * t_kelvin / f_coulomb_per_mole *
    env.log (cao_millimolar / y 2)

def e_k (env : Env) : ℚ :=
  r_joule_per_mole_kelvin * t_kelvin / f_coulomb_per_mole *
    env.log (ko_millimolar / ki_millimolar)

def pk_na : ℚ := 0.03

def e_ks (env : Env) (y : Fin 23 → ℚ) : ℚ :=
  r_joule_per_mole_kelvin * t_kelvin / f_coulomb_per_mole *
    env.log ((ko_millimolar + pk_na * nao_millimolar) /
      (ki_millimolar + pk_na * y 17))

/-! ### Gating kinetics: steady states and time constants
(`v` is the membrane voltage `y[0]` in volts, `ca` is cytosolic calcium
`y[2]`). -/

-- h gate (fast sodium inactivation), slot 11
def h_inf (env : Env) (v : ℚ) : ℚ :=
  1.0 / env.sqrt (1.0 + env.exp ((v * 1000.0 + 72.1) / 5.7))

def alpha_h (env : Env) (v : ℚ) : ℚ :=
  0.057 * env.exp (-(v * 1000.0 + 80.0) / 6.8)

def beta_h (env : Env) (v : ℚ) : ℚ :=
  2.7 * env.exp (0.079 * v * 1000.0) +
    3.1 * (10.0 : ℚ) ^ (5 : ℕ) * env.exp (0.3485 * v * 1000.0)

def tau_h (env : Env) (v : ℚ) : ℚ :=
  if v < -0.0385 then 1.5 / ((alpha_h env v + beta_h env v) * 1000.0)
  else 1.5 * 1.6947 / 1000.0

-- j gate (slow sodium inactivation), slot 12
def j_inf (env : Env) (v : ℚ) : ℚ :=
  1.0 / env.sqrt (1.0 + env.exp ((v * 1000.0 + 72.1) / 5.7))

def alpha_j (env : Env) (v : ℚ) : ℚ :=
  if v < -0.04 then
    (-25428.0 * env.exp (0.2444 * v * 1000.0) -
        6.948 * (10.0 : ℚ) ^ (-6 : ℤ) * env.exp (-0.04391 * v * 1000.0)) *
      (v * 1000.0 + 37.78) /
      (1.0 + env.exp (0.311 * (v * 1000.0 + 79.23)))
  else 0.0

def beta_j (env : Env) (v : ℚ) : ℚ :=
  if v < -0.04 then
    0.02424 * env.exp (-0.01052 * v * 1000) /
      (1 + env.exp (-0.1378 * (v * 1000 + 40.14)))
  else
    0.6 * env.exp (0.057 * v * 1000) /
      (1 + env.exp (-0.1 * (v * 1000 + 32)))

def tau_j (env : Env) (v : ℚ) : ℚ :=
  7.0 / ((alpha_j env v + beta_j env v) * 1000.0)

-- m gate (sodium activation), slot 13
def m_inf (env : Env) (v : ℚ) : ℚ :=
  1.0 / env.rpow (1.0 + env.exp ((-v * 1000.0 - 34.1) / 5.9)) (1.0 / 3.0)

def alpha_m (env : Env) (v : ℚ) : ℚ :=
  1.0 / (1.0 + env.exp ((-v * 1000.0 - 60.0) / 5.0))

def beta_m (env : Env) (v : ℚ) : ℚ :=
  0.1 / (1.0 + env.exp ((v * 1000.0 + 35.0) / 5.0)) +
    0.1 / (1.0 + env.exp ((v * 1000.0 - 50.0) / 200.0))

def tau_m (env : Env) (v : ℚ) : ℚ :=
  1.0 * alpha_m env v * beta_m env v / 1000.0

-- late sodium gates, slots 18 (m_L) and 19 (h_L)
def my_coef_tau_m : ℚ := 1
def tau_i_na_l_ms : ℚ := 200
def vh_h_late : ℚ := 87.61

def m_inf_l (env : Env) (v : ℚ) : ℚ :=
  1 / (1 + env.exp (-(v * 1000 + 42.85) / 5.264))

def alpha_m_l (env : Env) (v : ℚ) : ℚ :=
  1 / (1 + env.exp ((-60 - v * 1000) / 5))

def beta_m_l (env : Env) (v : ℚ) : ℚ :=
  0.1 / (1 + env.exp ((v * 1000 + 35) / 5)) +
    0.1 / (1 + env.exp ((v * 1000 - 50) / 200))

def tau_m_l (env : Env) (v : ℚ) : ℚ :=
  1 / 1000 * my_coef_tau_m * alpha_m_l env v * beta_m_l env v

def h_inf_l (env : Env) (v : ℚ) : ℚ :=
  1 / (1 + env.exp ((v * 1000 + vh_h_late) / 7.488))

def tau_h_l : ℚ := 1 / 1000 * tau_i_na_l_ms

-- Xf gate (funny current), slot 14
def xf_infinity (env : Env) (v : ℚ) : ℚ :=
  1.0 / (1.0 + env.exp ((v * 1000.0 + 77.85) / 5.0))

def tau_xf (env : Env) (v : ℚ) : ℚ :=
  1900.0 / (1.0 + env.exp ((v * 1000.0 + 15.0) / 10.0)) / 1000.0

-- d gate (L-type calcium activation), slot 4
def d_infinity (env : Env) (v : ℚ) : ℚ :=
  1.0 / (1.0 + env.exp (-(v * 1000.0 + 9.1) / 7.0))

def alpha_d (env : Env) (v : ℚ) : ℚ :=
  0.25 + 1.4 / (1.0 + env.exp ((-v * 1000.0 - 35.0) / 13.0))

def beta_d (env : Env) (v : ℚ) : ℚ :=
  1.4 / (1.0 + env.exp ((v * 1000.0 + 5.0) / 5.0))

def gamma_d (env : Env) (v : ℚ) : ℚ :=
  1.0 / (1.0 + env.exp ((-v * 1000.0 + 50.0) / 20.0))

def tau_d (env : Env) (v : ℚ) : ℚ :=
  (alpha_d env v * beta_d env v + gamma_d env v) * 1.0 / 1000.0

-- f1 gate (L-type calcium inactivation), slot 5; the time constant also
-- depends on cytosolic calcium and, through the sign test of the source,
-- on the current gate value `f1` itself.
def f1_inf (env : Env) (v : ℚ) : ℚ :=
  1.0 / (1.0 + env.exp ((v * 1000.0 + 26.0) / 3.0))

def const_f1 (env : Env) (v ca f1 : ℚ) : ℚ :=
  if f1_inf env v - f1 > 0.0 then 1.0 + 1433.0 * (ca - 50.0 * 1.0e-6)
  else 1.0

def tau_f1 (env : Env) (v ca f1 : ℚ) : ℚ :=
  (20.0 + 1102.5 * env.exp (-((v * 1000.0 + 27.0) ^ (2 : ℕ) / 15.0) ^ (2 : ℕ)) +
      200.0 / (1.0 + env.exp ((13.0 - v * 1000.0) / 10.0)) +
      180.0 / (1.0 + env.exp ((30.0 + v * 1000.0) / 10.0))) *
    const_f1 env v ca f1 / 1000.0

-- f2 gate, slot 6
def f2_inf (env : Env) (v : ℚ) : ℚ :=
  0.33 + 0.67 / (1.0 + env.exp ((v * 1000.0 + 32.0) / 4.0))

def const_f2 : ℚ := 1.0

def tau_f2 (env : Env) (v : ℚ) : ℚ :=
  (600.0 * env.exp (-(v * 1000.0 + 25.0) ^ (2 : ℕ) / 170.0) +
      31.0 / (1.0 + env.exp ((25.0 - v * 1000.0) / 10.0)) +
      16.0 / (1.0 + env.exp ((30.0 + v * 1000.0) / 10.0))) *
    const_f2 / 1000.0

-- fCa gate (calcium-dependent inactivation), slot 7
def alpha_f_ca (ca : ℚ) : ℚ :=
  1.0 / (1.0 + (ca / 0.0006) ^ (8 : ℕ))

def beta_f_ca (env : Env) (ca : ℚ) : ℚ :=
  0.1 / (1.0 + env.exp ((ca - 0.0009) / 0.0001))

def gamma_f_ca (env : Env) (ca : ℚ) : ℚ :=
  0.3 / (1.0 + env.exp ((ca - 0.00075) / 0.0008))

def f_ca_inf (env : Env) (ca : ℚ) : ℚ :=
  (alpha_f_ca ca + beta_f_ca env ca + gamma_f_ca env ca) / 1.3156

/-- The blocking factor of the fCa gate: `0` when the voltage is above
`-0.06 V` and the steady state exceeds the current gate value, else `1`. -/
def const_f_ca (env : Env) (v ca fca : ℚ) : ℚ :=
  if v > -0.06 ∧ f_ca_inf env ca > fca then 0.0 else 1.0

def tau_f_ca : ℚ := 0.002

-- q gate (transient-outward activation), slot 15
def q_inf (env : Env) (v : ℚ) : ℚ :=
  1.0 / (1.0 + env.exp ((v * 1000.0 + 53.0) / 13.0))

def tau_q (env : Env) (v : ℚ) : ℚ :=
  (6.06 + 39.102 /
      (0.57 * env.exp (-0.08 * (v * 1000.0 + 44.0)) +
        0.065 * env.exp (0.1 * (v * 1000.0 + 45.93)))) / 1000.0

-- r gate (transient-outward inactivation), slot 16
def r_inf (env : Env) (v : ℚ) : ℚ :=
  1.0 / (1.0 + env.exp (-(v * 1000.0 - 22.3) / 18.75))

def tau_r (env : Env) (v : ℚ) : ℚ :=
  (2.75352 + 14.40516 /
      (1.037 * env.exp (0.09 * (v * 1000.0 + 30.61)) +
        0.369 * env.exp (-0.12 * (v * 1000.0 + 23.84)))) / 1000.0

-- Xs gate (slow delayed rectifier), slot 10
def xs_infinity (env : Env) (v : ℚ) : ℚ :=
  1.0 / (1.0 + env.exp ((-v * 1000.0 - 20.0) / 16.0))

def alpha_xs (env : Env) (v : ℚ) : ℚ :=
  1100.0 / env.sqrt (1.0 + env.exp ((-10.0 - v * 1000.0) / 6.0))

def beta_xs (env : Env) (v : ℚ) : ℚ :=
  1.0 / (1.0 + env.exp ((-60.0 + v * 1000.0) / 20.0))

def tau_xs (env : Env) (v : ℚ) : ℚ :=
  1.0 * alpha_xs env v * beta_xs env v / 1000.0

-- Xr1 gate (rapid delayed rectifier activation), slot 8
def l0 : ℚ := 0.025

/-- The `v_half` of the Xr1 gate; the source's local `q = 2.3` is inlined. -/
def v_half (env : Env) : ℚ :=
  1000.0 * (-r_joule_per_mole_kelvin * t_kelvin /
      (f_coulomb_per_mole * 2.3) *
      env.log ((1.0 + cao_millimolar / 2.6) ^ (4 : ℕ) /
        (l0 * (1.0 + cao_millimolar / 0.58) ^ (4 : ℕ))) - 0.019)

def xr1_inf (env : Env) (v : ℚ) : ℚ :=
  1.0 / (1.0 + env.exp ((v_half env - v * 1000.0) / 4.9))

def alpha_xr1 (env : Env) (v : ℚ) : ℚ :=
  450.0 / (1.0 + env.exp ((-45.0 - v * 1000.0) / 10.0))

def beta_xr1 (env : Env) (v : ℚ) : ℚ :=
  6.0 / (1.0 + env.exp ((30.0 + v * 1000.0) / 11.5))

def tau_xr1 (env : Env) (v : ℚ) : ℚ :=
  1.0 * alpha_xr1 env v * beta_xr1 env v / 1000.0

-- Xr2 gate (rapid delayed rectifier inactivation), slot 9
def xr2_infinity (env : Env) (v : ℚ) : ℚ :=
  1.0 / (1.0 + env.exp ((v * 1000.0 + 88.0) / 50.0))

def alpha_xr2 (env : Env) (v : ℚ) : ℚ :=
  3.0 / (1.0 + env.exp ((-60.0 - v * 1000.0) / 20.0))

def beta_xr2 (env : Env) (v : ℚ) : ℚ :=
  1.12 / (1.0 + env.exp ((-60.0 + v * 1000.0) / 20.0))

def tau_xr2 (env : Env) (v : ℚ) : ℚ :=
  1.0 * alpha_xr2 env v * beta_xr2 env v / 1000.0

-- Ryanodine-receptor gating states, slots 20-22
def ry_rsr_cass (env : Env) (casr : ℚ) : ℚ :=
  1 - 1 / (1 + env.exp ((casr - 0.3) / 0.1))

def ry_rainfss (env : Env) (ca : ℚ) : ℚ :=
  ry_ra_1_micromolar - ry_ra_2_micromolar /
    (1 + env.exp ((1000 * ca - ry_rahalf_micromolar) / 0.0082))

def ry_rtauadapt : ℚ := 1

def ry_roinfss (env : Env) (ca ryra : ℚ) : ℚ :=
  1 - 1 / (1 + env.exp ((1000 * ca - (ryra + ry_rohalf_micromolar)) / 0.003))

def ry_rtauact (env : Env) (ca ryra ryro : ℚ) : ℚ :=
  if ry_roinfss env ca ryra ≥ ryro then 18.75e-3 else 0.1 * 18.75e-3

def ry_rcinfss (env : Env) (ca ryra : ℚ) : ℚ :=
  1 / (1 + env.exp ((1000 * ca - (ryra + ry_rchalf_micromolar)) / 0.001))

def ry_rtauinact (env : Env) (ca ryra ryrc : ℚ) : ℚ :=
  if ry_rcinfss env ca ryra ≥ ryrc then 2 * 87.5e-3 else 87.5e-3

/-! ### Ionic currents (arguments: environment, parameter dict, time,
23-component state) -/

/-- Fast sodium current (with step-function drug attenuation at
`t_drug_application`). -/
def i_na (env : Env) (p : Dict) (t : ℚ) (y : Fin 23 → ℚ) : ℚ :=
  ((if t < t_drug_application then (1 : ℚ) else 0) * 1 +
      (if t_drug_application ≤ t then (1 : ℚ) else 0) * i_na_f_red_med) *
    getParam p "g_na" * (y 13) ^ (3 : ℕ) * y 11 * y 12 * (y 0 - e_na env y)

/-- Late sodium current. -/
def i_na_l (env : Env) (p : Dict) (y : Fin 23 → ℚ) : ℚ :=
  getParam p "g_na_lmax" * (y 18) ^ (3 : ℕ) * y 19 * (y 0 - e_na env y)

def e_f_volt : ℚ := -0.017

/-- Funny (hyperpolarization-activated) current. -/
def i_f (p : Dict) (y : Fin 23 → ℚ) : ℚ :=
  getParam p "g_f_s" * y 14 * (y 0 - e_f_volt)

/-- Sodium component of the funny current. -/
def i_f_na (env : Env) (p : Dict) (y : Fin 23 → ℚ) : ℚ :=
  0.42 * getParam p "g_f_s" * y 14 * (y 0 - e_na env y)

/-- L-type calcium current. -/
def i_ca_l (env : Env) (p : Dict) (t : ℚ) (y : Fin 23 → ℚ) : ℚ :=
  ((if t < t_drug_application then (1 : ℚ) else 0) * 1 +
      (if t_drug_application ≤ t then (1 : ℚ) else 0) * i_ca_l_red_med) *
    getParam p "g_ca_l" * 4.0 * y 0 *
    f_coulomb_per_mole ^ (2 : ℕ) / (r_joule_per_mole_kelvin * t_kelvin) *
    (y 2 * env.exp (2.0 * y 0 * f_coulomb_per_mole /
        (r_joule_per_mole_kelvin * t_kelvin)) - 0.341 * cao_millimolar) /
    (env.exp (2.0 * y 0 * f_coulomb_per_mole /
        (r_joule_per_mole_kelvin * t_kelvin)) - 1.0) *
    y 4 * y 5 * y 6 * y 7

def g_to_s_per_f : ℚ := 29.9038

/-- Transient outward current. -/
def i_to (env : Env) (y : Fin 23 → ℚ) : ℚ :=
  g_to_s_per_f * (y 0 - e_k env) * y 15 * y 16

/-- Slow delayed rectifier potassium current. -/
def i_ks (env : Env) (p : Dict) (t : ℚ) (y : Fin 23 → ℚ) : ℚ :=
  ((if t < t_drug_application then (1 : ℚ) else 0) * 1 +
      (if t_drug_application ≤ t then (1 : ℚ) else 0) * i_ks_red_med) *
    getParam p "g_ks_s" * (y 0 - e_ks env y) * (y 10) ^ (2 : ℕ) *
    (1.0 + 0.6 / (1.0 + env.rpow (3.8 * 0.00001 / y 2) 1.4))

/-- Rapid delayed rectifier potassium current. -/
def i_kr (env : Env) (p : Dict) (t : ℚ) (y : Fin 23 → ℚ) : ℚ :=
  ((if t < t_drug_application then (1 : ℚ) else 0) * 1 +
      (if t_drug_application ≤ t then (1 : ℚ) else 0) * i_kr_red_med) *
    getParam p "g_kr_s" * (y 0 - e_k env) * y 8 * y 9 *
    env.sqrt (ko_millimolar / 5.4)

def alpha_k1 (env : Env) (v ek : ℚ) : ℚ :=
  3.91 / (1.0 + env.exp (0.5942 * (v * 1000.0 - ek * 1000.0 - 200.0)))

def beta_k1 (env : Env) (v ek : ℚ) : ℚ :=
  (-1.509 * env.exp (0.0002 * (v * 1000.0 - ek * 1000.0 + 100.0)) +
      env.exp (0.5886 * (v * 1000.0 - ek * 1000.0 - 10.0))) /
    (1.0 + env.exp (0.4547 * (v * 1000.0 - ek * 1000.0)))

def xk1_inf (env : Env) (v ek : ℚ) : ℚ :=
  alpha_k1 env v ek / (alpha_k1 env v ek + beta_k1 env v ek)

/-- Inward rectifier potassium current. -/
def i_k1 (env : Env) (p : Dict) (y : Fin 23 → ℚ) : ℚ :=
  getParam p "g_k1_s" * xk1_inf env (y 0) (e_k env) * (y 0 - e_k env) *
    env.sqrt (ko_millimolar / 5.4)

def km_ca_millimolar : ℚ := 1.38
def km_nai_millimolar : ℚ := 87.5
def ksat : ℚ := 0.1

/-- The source's local `gamma` of the sodium-calcium exchanger. -/
def gamma_na_ca : ℚ := 0.35

/-- Sodium-calcium exchanger current. -/
def i_na_ca (env : Env) (y : Fin 23 → ℚ) : ℚ :=
  k_na_ca_a_per_f *
    (env.exp (gamma_na_ca * y 0 * f_coulomb_per_mole /
          (r_joule_per_mole_kelvin * t_kelvin)) *
        (y 17) ^ (3 : ℕ) * cao_millimolar -
      env.exp ((gamma_na_ca - 1.0) * y 0 * f_coulomb_per_mole /
          (r_joule_per_mole_kelvin * t_kelvin)) *
        nao_millimolar ^ (3 : ℕ) * y 2 * alpha_in_i_na_ca) /
    ((km_nai_millimolar ^ (3 : ℕ) + nao_millimolar ^ (3 : ℕ)) *
      (km_ca_millimolar + cao_millimolar) *
      (1.0 + ksat * env.exp ((gamma_na_ca - 1.0) * y 0 * f_coulomb_per_mole /
          (r_joule_per_mole_kelvin * t_kelvin))))

def km_k_millimolar : ℚ := 1.0
def km_na_millimolar : ℚ := 40.0

/-- Sodium-potassium pump current. -/
def i_na_k (env : Env) (y : Fin 23 → ℚ) : ℚ :=
  p_na_k_a_per_f * ko_millimolar / (ko_millimolar + km_k_millimolar) *
    y 17 / (y 17 + km_na_millimolar) /
    (1.0 + 0.1245 * env.exp (-0.1 * y 0 * f_coulomb_per_mole /
        (r_joule_per_mole_kelvin * t_kelvin)) +
      0.0353 * env.exp (-y 0 * f_coulomb_per_mole /
        (r_joule_per_mole_kelvin * t_kelvin)))

def kp_ca_millimolar : ℚ := 0.0005

/-- Sarcolemmal calcium pump current. -/
def i_p_ca (p : Dict) (y : Fin 23 → ℚ) : ℚ :=
  getParam p "g_p_ca" * y 2 / (y 2 + kp_ca_millimolar)

/-- Background sodium current. -/
def i_b_na (env : Env) (p : Dict) (y : Fin 23 → ℚ) : ℚ :=
  getParam p "g_b_na" * (y 0 - e_na env y)

/-- Background calcium current. -/
def i_b_ca (env : Env) (p : Dict) (y : Fin 23 → ℚ) : ℚ :=
  getParam p "g_b_ca" * (y 0 - e_ca env y)

/-! ### Sarcoplasmic-reticulum fluxes and calcium buffering -/

def i_up (y : Fin 23 → ℚ) : ℚ :=
  vmax_up_millimolar_per_second /
    (1.0 + k_up_millimolar ^ (2 : ℕ) / (y 2) ^ (2 : ℕ))

def i_leak (y : Fin 23 → ℚ) : ℚ :=
  (y 1 - y 2) * v_leak_per_second

def i_rel (env : Env) (y : Fin 23 → ℚ) : ℚ :=
  g_irel_max_millimolar_per_second * ry_rsr_cass env (y 1) * y 21 * y 22 *
    (y 1 - y 2)

def buf_c_millimolar : ℚ := 0.25
def buf_sr_millimolar : ℚ := 10.0
def kbuf_c_millimolar : ℚ := 0.001
def kbuf_sr_millimolar : ℚ := 0.3

def cai_bufc (y : Fin 23 → ℚ) : ℚ :=
  1.0 / (1.0 + buf_c_millimolar * kbuf_c_millimolar /
      (y 2 + kbuf_c_millimolar) ^ (2 : ℕ))

def ca_sr_buf_sr (y : Fin 23 → ℚ) : ℚ :=
  1.0 / (1.0 + buf_sr_millimolar * kbuf_sr_millimolar /
      (y 1 + kbuf_sr_millimolar) ^ (2 : ℕ))

/-! ### The state-derivative function (RHS) -/

/-- The pure value computed by `PaciModel.action_potential_diff_eq`: the
23-entry derivative list `d_y`, in slot order. -/
def action_potential_diff_eq (env : Env) (p : Dict) (t : ℚ)
    (y : Fin 23 → ℚ) : List ℚ :=
  [
   -- slot 0, membrane potential: negative sum of the 13 currents
   -(i_k1 env p y + i_to env y + i_kr env p t y + i_ks env p t y +
      i_ca_l env p t y + i_na_k env y + i_na env p t y + i_na_l env p y +
      i_na_ca env y + i_p_ca p y + i_f p y + i_b_na env p y +
      i_b_ca env p y),
   -- slot 1, SR calcium
   ca_sr_buf_sr y * vc_micrometer_cube / v_sr_micrometer_cube *
     (i_up y - (i_rel env y + i_leak y)),
   -- slot 2, cytosolic calcium
   cai_bufc y * (i_leak y - i_up y + i_rel env y -
     (i_ca_l env p t y + i_b_ca env p y + i_p_ca p y - 2.0 * i_na_ca env y) *
       cm_farad / (2.0 * vc_micrometer_cube * f_coulomb_per_mole * 1.0e-18)),
   -- slot 3, constant placeholder
   0,
   -- slot 4, d gate
   (d_infinity env (y 0) - y 4) / tau_d env (y 0),
   -- slot 5, f1 gate
   (f1_inf env (y 0) - y 5) / tau_f1 env (y 0) (y 2) (y 5),
   -- slot 6, f2 gate
   (f2_inf env (y 0) - y 6) / tau_f2 env (y 0),
   -- slot 7, fCa gate (with the blocking factor)
   const_f_ca env (y 0) (y 2) (y 7) * (f_ca_inf env (y 2) - y 7) / tau_f_ca,
   -- slot 8, Xr1 gate
   (xr1_inf env (y 0) - y 8) / tau_xr1 env (y 0),
   -- slot 9, Xr2 gate
   (xr2_infinity env (y 0) - y 9) / tau_xr2 env (y 0),
   -- slot 10, Xs gate
   (xs_infinity env (y 0) - y 10) / tau_xs env (y 0),
   -- slot 11, h gate
   (h_inf env (y 0) - y 11) / tau_h env (y 0),
   -- slot 12, j gate
   (j_inf env (y 0) - y 12) / tau_j env (y 0),
   -- slot 13, m gate
   (m_inf env (y 0) - y 13) / tau_m env (y 0),
   -- slot 14, Xf gate
   (xf_infinity env (y 0) - y 14) / tau_xf env (y 0),
   -- slot 15, q gate
   (q_inf env (y 0) - y 15) / tau_q env (y 0),
   -- slot 16, r gate
   (r_inf env (y 0) - y 16) / tau_r env (y 0),
   -- slot 17, intracellular sodium
   -cm_farad * (i_na env p t y + i_na_l env p y + i_b_na env p y +
       3.0 * i_na_k env y + 3.0 * i_na_ca env y + i_f_na env p y) /
     (f_coulomb_per_mole * vc_micrometer_cube * 1.0e-18),
   -- slot 18, m_L gate
   (m_inf_l env (y 0) - y 18) / tau_m_l env (y 0),
   -- slot 19, h_L gate
   (h_inf_l env (y 0) - y 19) / tau_h_l,
   -- slot 20, RyRa
   (ry_rainfss env (y 2) - y 20) / ry_rtauadapt,
   -- slot 21, RyRo
   (ry_roinfss env (y 2) (y 20) - y 21) / ry_rtauact env (y 2) (y 20) (y 21),
   -- slot 22, RyRc
   (ry_rcinfss env (y 2) (y 20) - y 22) / ry_rtauinact env (y 2) (y 20) (y 22)]

/-- One `(channel name, instantaneous value)` pair of a current snapshot. -/
structure Current where
  name : String
  value : ℚ
deriving DecidableEq

/-- The per-timestep snapshot of the 13 named currents appended to
`current_response_info` by `action_potential_diff_eq`. -/
def current_timestep (env : Env) (p : Dict) (t : ℚ)
    (y : Fin 23 → ℚ) : List Current :=
  [⟨"i_k1", i_k1 env p y⟩,
   ⟨"i_to", i_to env y⟩,
   ⟨"i_kr", i_kr env p t y⟩,
   ⟨"i_ks", i_ks env p t y⟩,
   ⟨"i_ca_l", i_ca_l env p t y⟩,
   ⟨"i_na_k", i_na_k env y⟩,
   ⟨"i_na", i_na env p t y⟩,
   ⟨"i_na_l", i_na_l env p y⟩,
   ⟨"i_na_ca", i_na_ca env y⟩,
   ⟨"i_p_ca", i_p_ca p y⟩,
   ⟨"i_f", i_f p y⟩,
   ⟨"i_b_na", i_b_na env p y⟩,
   ⟨"i_b_ca", i_b_ca env p y⟩]

/-! ### Protocols, trace records and model state -/

/-- One `(duration, voltage)` step of a voltage-clamp protocol. -/
structure VoltageClampStep where
  duration : ℚ
  voltage : ℚ
deriving DecidableEq

/-- The closed set of protocol variants dispatched on by
`generate_response`, plus `unknown` standing for any object that is not an
instance of the three known protocol classes (the `if/elif/elif` chain of
the source has no `else` branch). -/
inductive Protocol where
  | singleActionPotential (duration : ℚ)
  | irregularPacing (duration : ℚ) (stimulation_offsets : List ℚ)
  | voltageClamp (steps : List VoltageClampStep)
  | unknown
deriving DecidableEq

/-- Accumulator of per-timestep current snapshots
(`trace.CurrentResponseInfo`). -/
structure CurrentResponseInfo where
  currents : List (List Current)
deriving DecidableEq

/-- Modelled from the spec: the pacing bookkeeping record
(`trace.IrregularPacingInfo` is not under `src/`).  Per spec section 3,
PacingInfo tracks the ordered list of detected peak times, the pending
90-percent-repolarization threshold voltage, the ordered list of detected
APD90 crossing times and the ordered list of scheduled stimulation times. -/
structure PacingInfo where
  peaks : List ℚ
  apd_90_end_voltage : Option ℚ
  apd_90s : List ℚ
  stimulations : List ℚ
deriving DecidableEq

/-- A freshly constructed `trace.IrregularPacingInfo()`. -/
def freshPacingInfo : PacingInfo :=
  { peaks := [], apd_90_end_voltage := none, apd_90s := [],
    stimulations := [] }

/-- The immutable output record (`trace.Trace`). -/
structure Trace where
  t : List ℚ
  y : List ℚ
  current_response_info : Option CurrentResponseInfo
  pacing_info : Option PacingInfo
deriving DecidableEq

/-- The mutable instance state of a `PaciModel`: the tunable-parameter dict
and the per-run accumulators. -/
structure ModelState where
  default_parameters : Dict
  t : List ℚ
  y_voltage : List ℚ
  d_y_voltage : List ℚ
  full_y : List (Fin 23 → ℚ)
  current_response_info : Option CurrentResponseInfo

/-- The constructor `PaciModel.__init__`: install the parameter-dict literal, apply the
(`truthy`, i.e. non-empty) override dict, and zero the accumulators. -/
def paci_model_init (updated_parameters : Dict) : ModelState :=
  { default_parameters :=
      if updated_parameters.isEmpty then default_parameters
      else dict_update default_parameters updated_parameters,
    t := [], y_voltage := [], d_y_voltage := [], full_y := [],
    current_response_info := none }

/-- The stateful body of `PaciModel.action_potential_diff_eq`: append the
sample `(t, y[0], y)` to the running histories, compute the pure derivative
list, record the current snapshot when diagnostics are on, append the
voltage derivative, and return the new state together with `d_y`. -/
def action_potential_diff_eq_step (env : Env) (s : ModelState) (t : ℚ)
    (y : Fin 23 → ℚ) : ModelState × List ℚ :=
  let s1 := { s with y_voltage := s.y_voltage ++ [y 0],
                     t := s.t ++ [t],
                     full_y := s.full_y ++ [y] }
  let d_y := action_potential_diff_eq env s.default_parameters t y
  let cri2 : Option CurrentResponseInfo :=
    match s1.current_response_info with
    | some cri =>
        some { currents :=
          cri.currents ++ [current_timestep env s.default_parameters t y] }
    | none => none
  let s2 := { s1 with current_response_info := cri2 }
  let s3 := { s2 with d_y_voltage := s2.d_y_voltage ++ [d_y.getD 0 0] }
  (s3, d_y)

/-! ### Irregular-Pacing driver -/

/-- Modelled from the spec: the online detector interface and pacing
constants.  `trace.IrregularPacingInfo.detect_peak`, `detect_apd_90`,
`should_stimulate`, the baseline constant `AVG_AP_START_VOLTAGE` and
`IrregularPacingProtocol.STIM_AMPLITUDE_AMPS` are not under `src/`; their
call shapes are taken from the call sites in `paci_2018.py` and spec
section 4.5, and their decision behaviour is kept abstract. -/
structure PacingEnv where
  detect_peak : PacingInfo → List ℚ → ℚ → List ℚ → Bool
  detect_apd_90 : PacingInfo → ℚ → Bool
  should_stimulate : PacingInfo → ℚ → Bool
  avg_ap_start_voltage : ℚ
  stim_amplitude_amps : ℚ

/-- Modelled from the spec: `trace.IrregularPacingInfo.add_apd_90` is not
under `src/`; per spec section 4.5, on APD90 detection the APD90 time is
recorded. -/
def add_apd_90 (pi : PacingInfo) (t : ℚ) : PacingInfo :=
  { pi with apd_90s := pi.apd_90s ++ [t] }

/-- The driver state of one irregular-pacing run: the PacingInfo plus the
cursor of the offset generator produced by
`protocol.make_offset_generator()` (a finite, non-restartable sequence;
`next` past the end raises `StopIteration`, modelled by the cursor
reaching the length of the offset list). -/
structure PacingState where
  pacing : PacingInfo
  cursor : ℕ
deriving DecidableEq

/-- Peak-handling phase of the `irregular_pacing` closure (lines 168-171 of
the source): when the detector signals a peak, append the peak time and set
the pending 90-percent-repolarization target voltage. -/
def ip_after_peak (pe : PacingEnv) (pi : PacingInfo) (ts dvs : List ℚ)
    (t y0 : ℚ) : PacingInfo :=
  if pe.detect_peak pi ts y0 dvs then
    { pi with peaks := pi.peaks ++ [t],
              apd_90_end_voltage :=
                some (y0 - abs (pe.avg_ap_start_voltage - y0) * 0.9) }
  else pi

/-- APD90-handling phase of the `irregular_pacing` closure (lines 173-178):
when the detector signals APD90, record the time and, if the offset sequence
is not yet exhausted, schedule one stimulation at `t + next_offset`
(the `StopIteration` of an exhausted generator is caught by the source's
`except StopIteration: pass`, leaving the stimulation list unchanged). -/
def ip_after_apd (pe : PacingEnv) (offsets : List ℚ) (pi : PacingInfo)
    (cursor : ℕ) (t y0 : ℚ) : PacingInfo × ℕ :=
  if pe.detect_apd_90 pi y0 then
    let piA := add_apd_90 pi t
    if h : cursor < offsets.length then
      ({ piA with stimulations :=
           piA.stimulations ++ [t + offsets.get ⟨cursor, h⟩] }, cursor + 1)
    else (piA, cursor)
  else (pi, cursor)

/-- One evaluation of the `irregular_pacing` forcing closure: run the RHS
(with its recording side effects), run the peak and APD90 phases against
the updated histories, and add the stimulus current to the voltage
derivative when the scheduler says the cell should presently be
stimulated. -/
def irregular_pacing_step (env : Env) (pe : PacingEnv) (offsets : List ℚ)
    (ms : ModelState) (ps : PacingState) (t : ℚ) (y : Fin 23 → ℚ) :
    ModelState × PacingState × List ℚ :=
  let msd := action_potential_diff_eq_step env ms t y
  let pi1 := ip_after_peak pe ps.pacing msd.1.t msd.1.d_y_voltage t (y 0)
  let pic := ip_after_apd pe offsets pi1 ps.cursor t (y 0)
  let i_stimulation : ℚ :=
    if pe.should_stimulate pic.1 t then pe.stim_amplitude_amps / cm_farad
    else 0.0
  let d_y := (msd.2).set 0 ((msd.2).getD 0 0 + i_stimulation)
  (msd.1, ⟨pic.1, pic.2⟩, d_y)

/-! ### Voltage-Clamp driver -/

/-- Modelled from the spec: `VoltageClampProtocol.get_voltage_at_time` is
not under `src/`; per spec section 4.4, the scheduled voltage at time `t` is
the target voltage of the step whose cumulative-duration interval contains
`t` (held constant within a step).  Times beyond the schedule map to `0`. -/
def get_voltage_at_time : List VoltageClampStep → ℚ → ℚ
  | [], _ => 0
  | s :: rest, t => if t ≤ s.duration then s.voltage
                    else get_voltage_at_time rest (t - s.duration)

/-- Modelled from the spec: `VoltageClampProtocol.voltage_change_endpoints`
is not under `src/`; per spec section 4.4 the schedule is described by
cumulative step durations, whose last entry (the integration endpoint used
at line 144 of the source) is the sum of all step durations. -/
def voltage_change_endpoints (steps : List VoltageClampStep) : List ℚ :=
  (steps.map VoltageClampStep.duration).scanl (· + ·) 0 |>.tail

/-- The pure value of one evaluation of the `voltage_clamp` forcing closure:
overwrite the voltage slot of `y` with the scheduled voltage at `t`, then
evaluate the RHS. -/
def voltage_clamp (env : Env) (p : Dict) (steps : List VoltageClampStep)
    (t : ℚ) (y : Fin 23 → ℚ) : List ℚ :=
  action_potential_diff_eq env p t
    (Function.update y 0 (get_voltage_at_time steps t))

/-! ### Simulation façade (`generate_response`) -/

/-- The per-run accumulator reset performed at the top of
`generate_response` (lines 101-104 of the source). -/
def reset_run_state (m : ModelState) : ModelState :=
  { m with t := [], y_voltage := [], d_y_voltage := [], full_y := [] }

/-- State handed to the integrator by the Single-Action-Potential branch:
reset accumulators and a fresh `CurrentResponseInfo`. -/
def sap_pre_state (m : ModelState) : ModelState :=
  { reset_run_state m with current_response_info := some ⟨[]⟩ }

/-- State handed to the integrator by the Irregular-Pacing branch: reset
accumulators; `current_response_info` is not touched by this branch. -/
def ip_pre_state (m : ModelState) : ModelState :=
  reset_run_state m

/-- State handed to the integrator by the Voltage-Clamp branch: reset
accumulators and a fresh `CurrentResponseInfo`. -/
def vc_pre_state (m : ModelState) : ModelState :=
  { reset_run_state m with current_response_info := some ⟨[]⟩ }

/-- The `[0, protocol.voltage_change_endpoints[-1]]` integration span of the
Voltage-Clamp branch. -/
def vc_solve_span (steps : List VoltageClampStep) : ℚ × ℚ :=
  (0, (voltage_change_endpoints steps).getLastD 0)

/-- The external stiff integrator (`scipy.integrate.solve_ivp` with
`method='BDF'`, `max_step=1e-3`), one abstract run function per branch.
Each run function receives the integration span, the initial condition
list and the pre-integration engine state (plus, for Irregular Pacing,
the offset schedule and the fresh driver state) and either returns the
final mutated state or signals the `ValueError` raised on numerical
failure, carrying the state reached at the failure point. -/
structure RunOutcome where
  sap : ℚ × ℚ → List ℚ → ModelState → Except ModelState ModelState
  ip : ℚ × ℚ → List ℚ → List ℚ → ModelState → PacingState →
       Except ModelState (ModelState × PacingState)
  vc : ℚ × ℚ → List ℚ → ModelState → Except ModelState ModelState

/-- The facade `PaciModel.generate_response`: reset the per-run accumulators, dispatch
on the protocol class, invoke the integrator and package a `Trace`, or
return `none` when the integrator raises `ValueError`; an object of none of
the three protocol classes falls through the `if/elif/elif` chain and
returns `None`.  The final engine state is returned alongside the optional
trace. -/
def generate_response (integ : RunOutcome) (m : ModelState) :
    Protocol → ModelState × Option Trace
  | .singleActionPotential duration =>
      match integ.sap (0, duration) y_initial_zero (sap_pre_state m) with
      | .error mE => (mE, none)
      | .ok mOk =>
          (mOk, some { t := mOk.t, y := mOk.y_voltage,
                       current_response_info := mOk.current_response_info,
                       pacing_info := none })
  | .irregularPacing duration offsets =>
      match integ.ip (0, duration) y_initial offsets (ip_pre_state m)
          ⟨freshPacingInfo, 0⟩ with
      | .error mE => (mE, none)
      | .ok msOk =>
          (msOk.1, some { t := msOk.1.t, y := msOk.1.y_voltage,
                          current_response_info := none,
                          pacing_info := some msOk.2.pacing })
  | .voltageClamp steps =>
      match integ.vc (vc_solve_span steps) y_initial (vc_pre_state m) with
      | .error mE => (mE, none)
      | .ok mOk =>
          (mOk, some { t := mOk.t, y := mOk.y_voltage,
                       current_response_info := mOk.current_response_info,
                       pacing_info := none })
  | .unknown => (reset_run_state m, none)

/-! ### `generate_trace` free function -/

/-- A tunable parameter descriptor (`ga_configs.Parameter`). -/
structure Parameter where
  name : String
  default_value : ℚ

/-- Python truthiness of an optional-list argument: `None` and the empty
list are falsy. -/
def truthy {α : Type} (o : Option (List α)) : Bool :=
  match o with
  | none => false
  | some l => !l.isEmpty

/-- The `for i in range(len(params)): new_params[tunable_parameters[i].name]
= params[i]` loop of `generate_trace`; `none` models the uncaught
`IndexError` raised when `params` is longer than `tunable_parameters`. -/
def build_new_params : List ℚ → List Parameter → Dict → Option Dict
  | [], _, acc => some acc
  | _ :: _, [], _ => none
  | p :: ps, tp :: tps, acc => build_new_params ps tps (dict_set acc tp.name p)

/-- The free function `paci_2018.generate_trace`: assemble the override dict from the two
optional lists when both are truthy, construct a fresh `PaciModel`, and run
the protocol.  The outer `Option` models the uncaught `IndexError` of a
too-long `params` list. -/
def generate_trace (integ : RunOutcome) (protocol : Protocol)
    (tunable_parameters : Option (List Parameter) := none)
    (params : Option (List ℚ) := none) :
    Option (ModelState × Option Trace) :=
  let new_params? : Option Dict :=
    if truthy params && truthy tunable_parameters then
      build_new_params (params.getD []) (tunable_parameters.getD []) []
    else some []
  match new_params? with
  | none => none
  | some np => some (generate_response integ (paci_model_init np) protocol)

/-! ### Concrete instances used to evaluate the embedding -/

/-- A concrete numeric environment with trivial transcendental primitives,
used to evaluate the model on explicit inputs. -/
def envEx : Env :=
  { exp := fun _ => 0, log := fun _ => 0, sqrt := fun _ => 1,
    rpow := fun _ _ => 1 }

/-- A concrete state vector: voltage `0 V`, cytosolic calcium `0.0006 mM`,
all other slots `0`. -/
def yEx : Fin 23 → ℚ := fun i => if i.val = 2 then 3 / 5000 else 0

/-- A freshly constructed model with default parameters. -/
def msEx : ModelState := paci_model_init []

/-- A fresh irregular-pacing driver state. -/
def psEx : PacingState := { pacing := freshPacingInfo, cursor := 0 }

/-- A model state as left behind by a previous run: non-empty sample
histories and one recorded current snapshot. -/
def mPrev : ModelState :=
  { msEx with t := [0.1], y_voltage := [-0.07], d_y_voltage := [0.5],
              current_response_info :=
                some { currents := [[{ name := "i_k1", value := 3 }]] } }

/-- An integrator whose every run raises `ValueError` immediately,
reporting the state it was invoked on. -/
def integErr : RunOutcome :=
  { sap := fun _ _ s => .error s,
    ip := fun _ _ _ s _ => .error s,
    vc := fun _ _ s => .error s }

/-- An integrator whose every run succeeds without taking a step. -/
def integOk : RunOutcome :=
  { sap := fun _ _ s => .ok s,
    ip := fun _ _ _ s ps => .ok (s, ps),
    vc := fun _ _ s => .ok s }

/-- An integrator that records, inside the reported failure state, the
initial-condition list and the integration span it was handed. -/
def argSpy : RunOutcome :=
  { sap := fun span y0 s => .error { s with y_voltage := y0, t := [span.1, span.2] },
    ip := fun span y0 _ s _ => .error { s with y_voltage := y0, t := [span.1, span.2] },
    vc := fun span y0 s => .error { s with y_voltage := y0, t := [span.1, span.2] } }

/-- A pacing environment whose detector always signals a peak and never
anything else. -/
def pePeak : PacingEnv :=
  { detect_peak := fun _ _ _ _ => true,
    detect_apd_90 := fun _ _ => false,
    should_stimulate := fun _ _ => false,
    avg_ap_start_voltage := -0.07,
    stim_amplitude_amps := 7.5e-10 }

/-- A pacing environment whose detector always signals APD90 and never
anything else. -/
def peApd : PacingEnv :=
  { detect_peak := fun _ _ _ _ => false,
    detect_apd_90 := fun _ _ => true,
    should_stimulate := fun _ _ => false,
    avg_ap_start_voltage := -0.07,
    stim_amplitude_amps := 7.5e-10 }

/-- Concrete tunable-parameter descriptors. -/
def tpsW : List Parameter :=
  [{ name := "g_na", default_value := 3671.2302 },
   { name := "g_kr_s", default_value := 29.8667 }]

/-- Concrete override values matching `tpsW`. -/
def psW : List ℚ := [100, 200]

/-! ## Claim theorems -/

/-- C2: every evaluation of the state-derivative function — bare, under the
voltage-clamp driver, and under the irregular-pacing driver — returns a
derivative vector with exactly 23 entries whose entry at index 3 is
exactly 0, for any time, state, parameter dict and environment. -/
theorem diff_eq_length_23_and_slot3_zero (env : Env) (p : Dict) (t : ℚ)
    (y : Fin 23 → ℚ) (steps : List VoltageClampStep) (pe : PacingEnv)
    (offs : List ℚ) (ms : ModelState) (ps : PacingState) :
    (action_potential_diff_eq env p t y).length = 23 ∧
    (action_potential_diff_eq env p t y).getD 3 0 = 0 ∧
    (voltage_clamp env p steps t y).length = 23 ∧
    (voltage_clamp env p steps t y).getD 3 0 = 0 ∧
    ((irregular_pacing_step env pe offs ms ps t y).2.2).length = 23 ∧
    ((irregular_pacing_step env pe offs ms ps t y).2.2).getD 3 0 = 0 :=
  ⟨rfl, rfl, rfl, rfl, rfl, rfl⟩

/-- C3 (counterexample): the first-order relaxation law fails for the fCa
gate.  At voltage `0 V` (above `-0.06 V`), calcium `0.0006 mM` and gate
value `0`, the steady state exceeds the gate value, so the blocking factor
is `0` and the returned derivative is `0`, not
`(steady_state - current_value) / time_constant`. -/
theorem fca_gate_breaks_relaxation_law :
    (action_potential_diff_eq envEx default_parameters 0 yEx).getD 7 0 ≠
      (f_ca_inf envEx (yEx 2) - yEx 7) / tau_f_ca := by
  show const_f_ca envEx (yEx 0) (yEx 2) (yEx 7) *
      (f_ca_inf envEx (yEx 2) - yEx 7) / tau_f_ca ≠
    (f_ca_inf envEx (yEx 2) - yEx 7) / tau_f_ca
  have h0 : yEx 0 = 0 := rfl
  have h2 : yEx 2 = 3 / 5000 := rfl
  have h7 : yEx 7 = 0 := rfl
  have hinf : f_ca_inf envEx (3 / 5000) = 9 / 10 / 1.3156 := by
    simp only [f_ca_inf, alpha_f_ca, beta_f_ca, gamma_f_ca, envEx]
    norm_num
  have hcond : (0 : ℚ) > -0.06 ∧ f_ca_inf envEx (3 / 5000) > 0 := by
    refine ⟨by norm_num, ?_⟩
    rw [hinf]; norm_num
  have hc : const_f_ca envEx 0 (3 / 5000) 0 = 0 := by
    rw [const_f_ca, if_pos hcond]; norm_num
  rw [h0, h2, h7, hc, zero_mul, zero_div, hinf, tau_f_ca]
  norm_num

/-- C3 (amended): on every evaluation of the state-derivative function, 14
of the 15 gating variables satisfy the first-order relaxation law
`(steady_state - current_value) / time_constant` with the source's
steady-state/time-constant formulas (for f1 the time constant additionally
depends on the current f1 value through the sign test in `const_f1`);
the fCa gate's derivative instead carries the blocking factor
`const_f_ca`, so it satisfies the relaxation law exactly when that factor
is `1`, and is `0` otherwise. -/
theorem gates_first_order_relaxation (env : Env) (p : Dict) (t : ℚ)
    (y : Fin 23 → ℚ) :
    (action_potential_diff_eq env p t y).getD 4 0 =
      (d_infinity env (y 0) - y 4) / tau_d env (y 0) ∧
    (action_potential_diff_eq env p t y).getD 5 0 =
      (f1_inf env (y 0) - y 5) / tau_f1 env (y 0) (y 2) (y 5) ∧
    (action_potential_diff_eq env p t y).getD 6 0 =
      (f2_inf env (y 0) - y 6) / tau_f2 env (y 0) ∧
    (action_potential_diff_eq env p t y).getD 7 0 =
      const_f_ca env (y 0) (y 2) (y 7) * (f_ca_inf env (y 2) - y 7) /
        tau_f_ca ∧
    (action_potential_diff_eq env p t y).getD 8 0 =
      (xr1_inf env (y 0) - y 8) / tau_xr1 env (y 0) ∧
    (action_potential_diff_eq env p t y).getD 9 0 =
      (xr2_infinity env (y 0) - y 9) / tau_xr2 env (y 0) ∧
    (action_potential_diff_eq env p t y).getD 10 0 =
      (xs_infinity env (y 0) - y 10) / tau_xs env (y 0) ∧
    (action_potential_diff_eq env p t y).getD 11 0 =
      (h_inf env (y 0) - y 11) / tau_h env (y 0) ∧
    (action_potential_diff_eq env p t y).getD 12 0 =
      (j_inf env (y 0) - y 12) / tau_j env (y 0) ∧
    (action_potential_diff_eq env p t y).getD 13 0 =
      (m_inf env (y 0) - y 13) / tau_m env (y 0) ∧
    (action_potential_diff_eq env p t y).getD 14 0 =
      (xf_infinity env (y 0) - y 14) / tau_xf env (y 0) ∧
    (action_potential_diff_eq env p t y).getD 15 0 =
      (q_inf env (y 0) - y 15) / tau_q env (y 0) ∧
    (action_potential_diff_eq env p t y).getD 16 0 =
      (r_inf env (y 0) - y 16) / tau_r env (y 0) ∧
    (action_potential_diff_eq env p t y).getD 18 0 =
      (m_inf_l env (y 0) - y 18) / tau_m_l env (y 0) ∧
    (action_potential_diff_eq env p t y).getD 19 0 =
      (h_inf_l env (y 0) - y 19) / tau_h_l :=
  ⟨rfl, rfl, rfl, rfl, rfl, rfl, rfl, rfl, rfl, rfl, rfl, rfl, rfl, rfl, rfl⟩

/-- C4: on every evaluation of the state-derivative function, the voltage
derivative (entry 0, before any driver adds a stimulus) is the negative of
the sum of the 13 transmembrane currents recorded in the per-timestep
current snapshot, with no division by the membrane capacitance. -/
theorem voltage_derivative_is_negative_current_sum (env : Env) (p : Dict)
    (t : ℚ) (y : Fin 23 → ℚ) :
    (action_potential_diff_eq env p t y).getD 0 0 =
      -(((current_timestep env p t y).map Current.value).sum) := by
  simp only [action_potential_diff_eq, current_timestep, List.map_cons,
    List.map_nil, List.sum_cons, List.sum_nil, List.getD, List.get?,
    Option.getD]
  ring

/-- The last entry of a left scan by addition is the initial value plus the
list sum. -/
theorem getLastD_scanl_add (l : List ℚ) :
    ∀ a d : ℚ, (List.scanl (· + ·) a l).getLastD d = a + l.sum := by
  induction l with
  | nil => intro a d; simp
  | cons b bs ih =>
      intro a d
      rw [List.scanl_cons, List.singleton_append, List.getLastD_cons, ih]
      simp [add_assoc]

/-- The integration endpoint of the voltage-clamp branch is the sum of the
step durations. -/
theorem vc_solve_span_eq_sum (steps : List VoltageClampStep) :
    vc_solve_span steps =
      (0, (steps.map VoltageClampStep.duration).sum) := by
  unfold vc_solve_span voltage_change_endpoints
  cases h : steps.map VoltageClampStep.duration with
  | nil => simp
  | cons b bs =>
      rw [List.scanl_cons, List.singleton_append, List.tail_cons,
        getLastD_scanl_add]
      simp

/-- C5: under the voltage-clamp driver the voltage slot of `y` is
overwritten with the step schedule's target voltage before the derivative
is computed, so the current equations see exactly the scheduled voltage
regardless of the incoming value of `y[0]`; the integration span passed to
the solver is `[0, sum of step durations]` and the initial state passed is
the full physiological initial condition vector (observed here through an
argument-recording integrator). -/
theorem voltage_clamp_forces_schedule (env : Env) (p : Dict)
    (steps : List VoltageClampStep) (t : ℚ) (y : Fin 23 → ℚ) (v' : ℚ)
    (m : ModelState) :
    voltage_clamp env p steps t y =
      action_potential_diff_eq env p t
        (Function.update y 0 (get_voltage_at_time steps t)) ∧
    Function.update y 0 (get_voltage_at_time steps t) 0 =
      get_voltage_at_time steps t ∧
    voltage_clamp env p steps t (Function.update y 0 v') =
      voltage_clamp env p steps t y ∧
    vc_solve_span steps = (0, (steps.map VoltageClampStep.duration).sum) ∧
    (generate_response argSpy m (.voltageClamp steps)).1.y_voltage =
      y_initial ∧
    (generate_response argSpy m (.voltageClamp steps)).1.t =
      [0, (steps.map VoltageClampStep.duration).sum] := by
  refine ⟨rfl, Function.update_same _ _ _, ?_, vc_solve_span_eq_sum steps,
    rfl, ?_⟩
  · unfold voltage_clamp
    rw [Function.update_idem]
  · show [(vc_solve_span steps).1, (vc_solve_span steps).2] = _
    rw [vc_solve_span_eq_sum steps]

/-- C1: for each of the three protocol variants, when the external
integrator run raises the numerical-failure `ValueError`,
`generate_response` catches it and returns an absent trace (`none`) instead
of propagating the exception. -/
theorem generate_response_failure_returns_none (integ : RunOutcome)
    (m mE1 mE2 mE3 : ModelState) (d : ℚ) (offs : List ℚ)
    (steps : List VoltageClampStep) :
    (integ.sap (0, d) y_initial_zero (sap_pre_state m) = .error mE1 →
      generate_response integ m (.singleActionPotential d) = (mE1, none)) ∧
    (integ.ip (0, d) y_initial offs (ip_pre_state m) ⟨freshPacingInfo, 0⟩ =
        .error mE2 →
      generate_response integ m (.irregularPacing d offs) = (mE2, none)) ∧
    (integ.vc (vc_solve_span steps) y_initial (vc_pre_state m) =
        .error mE3 →
      generate_response integ m (.voltageClamp steps) = (mE3, none)) := by
  refine ⟨fun h => ?_, fun h => ?_, fun h => ?_⟩ <;>
    simp [generate_response, h]

/-- C1 (witness): with an integrator that fails on every run, every
protocol variant yields an absent trace. -/
theorem generate_response_failure_returns_none_witness :
    generate_response integErr msEx (.singleActionPotential 1) =
      (sap_pre_state msEx, none) ∧
    generate_response integErr msEx (.irregularPacing 1 []) =
      (ip_pre_state msEx, none) ∧
    generate_response integErr msEx (.voltageClamp []) =
      (vc_pre_state msEx, none) := by
  have h := generate_response_failure_returns_none integErr msEx
    (sap_pre_state msEx) (ip_pre_state msEx) (vc_pre_state msEx) 1 [] []
  exact ⟨h.1 rfl, h.2.1 rfl, h.2.2 rfl⟩

/-- C9: an object of none of the three known protocol classes falls through
the dispatch chain: `generate_response` returns `None` without raising,
with a result that does not depend on the integrator at all (it is never
invoked), and with the same absent-trace signal produced by a numerical
integration failure. -/
theorem unrecognized_protocol_absent_trace (integ integ2 : RunOutcome)
    (m : ModelState) :
    generate_response integ m .unknown = (reset_run_state m, none) ∧
    generate_response integ m .unknown =
      generate_response integ2 m .unknown ∧
    (generate_response integ m .unknown).2 =
      (generate_response integErr m (.singleActionPotential 1)).2 :=
  ⟨rfl, rfl, rfl⟩

/-- C8 (counterexample): the Irregular-Pacing branch of
`generate_response` does not reset the current-response accumulator.
Running a model that carries the current record of a previous run under an
irregular-pacing protocol hands the integrator (observed through the
failure state of `integErr`) an accumulator that still contains the
previous run's record — refuting the claim that all per-run accumulators,
including the current-response accumulator, are reset for every protocol
variant. -/
theorem ip_branch_retains_previous_run_currents :
    (generate_response integErr mPrev
        (.irregularPacing 1 [])).1.current_response_info =
      some { currents := [[{ name := "i_k1", value := 3 }]] } ∧
    mPrev.current_response_info =
      some { currents := [[{ name := "i_k1", value := 3 }]] } ∧
    (generate_response integErr mPrev
        (.irregularPacing 1 [])).1.current_response_info ≠ none := by
  refine ⟨rfl, rfl, fun hnone => ?_⟩
  rw [show (generate_response integErr mPrev
      (.irregularPacing 1 [])).1.current_response_info =
      some { currents := [[{ name := "i_k1", value := 3 }]] } from rfl]
    at hnone
  exact Option.noConfusion hnone

/-- C8 (amended): `generate_response` resets the time, voltage,
derivative-history and full-state accumulators in every branch; the
Single-Action-Potential and Voltage-Clamp branches additionally install a
fresh current-response accumulator, while the Irregular-Pacing branch
leaves the previous `current_response_info` in place (the trace returned
by a successful irregular-pacing run nevertheless carries no
current-response records). -/
theorem run_accumulator_reset (m : ModelState) (d : ℚ) (offs : List ℚ)
    (tr : Trace) (integ : RunOutcome) :
    ((sap_pre_state m).t, (sap_pre_state m).y_voltage,
      (sap_pre_state m).d_y_voltage, (sap_pre_state m).full_y) =
      ([], [], [], []) ∧
    ((vc_pre_state m).t, (vc_pre_state m).y_voltage,
      (vc_pre_state m).d_y_voltage, (vc_pre_state m).full_y) =
      ([], [], [], []) ∧
    ((ip_pre_state m).t, (ip_pre_state m).y_voltage,
      (ip_pre_state m).d_y_voltage, (ip_pre_state m).full_y) =
      ([], [], [], []) ∧
    (sap_pre_state m).current_response_info = some { currents := [] } ∧
    (vc_pre_state m).current_response_info = some { currents := [] } ∧
    (ip_pre_state m).current_response_info = m.current_response_info ∧
    ((generate_response integ m (.irregularPacing d offs)).2 = some tr →
      tr.current_response_info = none) := by
  refine ⟨rfl, rfl, rfl, rfl, rfl, rfl, fun h => ?_⟩
  revert h
  simp only [generate_response]
  cases hip : integ.ip (0, d) y_initial offs (ip_pre_state m)
      ⟨freshPacingInfo, 0⟩ with
  | error mE => intro h; simp at h
  | ok msOk =>
      intro h
      simp only [Option.some.injEq] at h
      rw [← h]

/-- C8 (amended, witness): at a model carrying previous-run records, the
accumulator facts hold and a successful irregular-pacing run returns a
trace without current records. -/
theorem run_accumulator_reset_witness :
    (ip_pre_state mPrev).current_response_info =
      mPrev.current_response_info ∧
    Trace.current_response_info
      { t := [], y := [], current_response_info := none,
        pacing_info := some freshPacingInfo } = none :=
  ⟨(run_accumulator_reset mPrev 1 []
      { t := [], y := [], current_response_info := none,
        pacing_info := some freshPacingInfo } integOk).2.2.2.2.2.1,
   (run_accumulator_reset mPrev 1 []
      { t := [], y := [], current_response_info := none,
        pacing_info := some freshPacingInfo } integOk).2.2.2.2.2.2 rfl⟩

/-- When the peak detector fires, the peak phase appends the peak time and
sets the pending repolarization target. -/
theorem ip_after_peak_pos (pe : PacingEnv) (pi : PacingInfo)
    (ts dvs : List ℚ) (t y0 : ℚ) (h : pe.detect_peak pi ts y0 dvs = true) :
    ip_after_peak pe pi ts dvs t y0 =
      { pi with peaks := pi.peaks ++ [t],
                apd_90_end_voltage :=
                  some (y0 - abs (pe.avg_ap_start_voltage - y0) * 0.9) } := by
  unfold ip_after_peak
  rw [h]
  simp

/-- The peak phase never touches the APD90 list or the stimulation list. -/
theorem ip_after_peak_preserves (pe : PacingEnv) (pi : PacingInfo)
    (ts dvs : List ℚ) (t y0 : ℚ) :
    (ip_after_peak pe pi ts dvs t y0).apd_90s = pi.apd_90s ∧
    (ip_after_peak pe pi ts dvs t y0).stimulations = pi.stimulations := by
  unfold ip_after_peak
  split <;> exact ⟨rfl, rfl⟩

/-- The APD90 phase never touches the peak list or the pending target. -/
theorem ip_after_apd_preserves (pe : PacingEnv) (offs : List ℚ)
    (pi : PacingInfo) (cursor : ℕ) (t y0 : ℚ) :
    (ip_after_apd pe offs pi cursor t y0).1.peaks = pi.peaks ∧
    (ip_after_apd pe offs pi cursor t y0).1.apd_90_end_voltage =
      pi.apd_90_end_voltage := by
  unfold ip_after_apd add_apd_90
  split
  · split <;> exact ⟨rfl, rfl⟩
  · exact ⟨rfl, rfl⟩

/-- APD90 phase with a detection and an exhausted offset sequence: the
APD90 time is recorded, nothing is scheduled, the cursor stays. -/
theorem ip_after_apd_pos_exhausted (pe : PacingEnv) (offs : List ℚ)
    (pi : PacingInfo) (cursor : ℕ) (t y0 : ℚ)
    (h : pe.detect_apd_90 pi y0 = true) (hge : offs.length ≤ cursor) :
    ip_after_apd pe offs pi cursor t y0 =
      ({ pi with apd_90s := pi.apd_90s ++ [t] }, cursor) := by
  unfold ip_after_apd add_apd_90
  rw [h]
  simp only [if_true]
  rw [dif_neg (by omega)]

/-- APD90 phase with a detection and a remaining offset: the APD90 time is
recorded, one stimulation is scheduled at `t + next_offset`, the cursor
advances. -/
theorem ip_after_apd_pos_take (pe : PacingEnv) (offs : List ℚ)
    (pi : PacingInfo) (cursor : ℕ) (t y0 : ℚ)
    (h : pe.detect_apd_90 pi y0 = true) (hlt : cursor < offs.length) :
    ip_after_apd pe offs pi cursor t y0 =
      ({ pi with apd_90s := pi.apd_90s ++ [t],
                 stimulations :=
                   pi.stimulations ++ [t + offs.get ⟨cursor, hlt⟩] },
        cursor + 1) := by
  unfold ip_after_apd add_apd_90
  rw [h]
  simp only [if_true]
  rw [dif_pos hlt]

/-- C6: under the irregular-pacing driver, whenever the detector signals a
peak at time `t` with voltage `y[0]`, the peak time is appended to the
PacingInfo peak list and the pending 90-percent-repolarization target is
set to `y[0] - 0.9 * |baseline - y[0]|` (with the source's operand order
`y[0] - |baseline - y[0]| * 0.9`), where the baseline is the fixed
action-potential start voltage. -/
theorem ip_peak_detection_updates (env : Env) (pe : PacingEnv)
    (offs : List ℚ) (ms : ModelState) (ps : PacingState) (t : ℚ)
    (y : Fin 23 → ℚ)
    (h : pe.detect_peak ps.pacing (ms.t ++ [t]) (y 0)
      (ms.d_y_voltage ++
        [(action_potential_diff_eq env ms.default_parameters t y).getD 0 0]) =
      true) :
    (irregular_pacing_step env pe offs ms ps t y).2.1.pacing.peaks =
      ps.pacing.peaks ++ [t] ∧
    (irregular_pacing_step env pe offs ms ps t y).2.1.pacing.apd_90_end_voltage =
      some (y 0 - abs (pe.avg_ap_start_voltage - y 0) * 0.9) := by
  have hpac : (irregular_pacing_step env pe offs ms ps t y).2.1.pacing =
      (ip_after_apd pe offs
        (ip_after_peak pe ps.pacing (ms.t ++ [t])
          (ms.d_y_voltage ++
            [(action_potential_diff_eq env ms.default_parameters t y).getD 0 0])
          t (y 0))
        ps.cursor t (y 0)).1 := rfl
  rw [hpac, ip_after_peak_pos pe ps.pacing _ _ t (y 0) h]
  exact ⟨((ip_after_apd_preserves pe offs _ ps.cursor t (y 0)).1),
    ((ip_after_apd_preserves pe offs _ ps.cursor t (y 0)).2)⟩

/-- C6 (witness): with a detector that signals a peak, one concrete step
records the peak time and the repolarization target. -/
theorem ip_peak_detection_updates_witness :
    (irregular_pacing_step envEx pePeak [] msEx psEx 5 yEx).2.1.pacing.peaks =
      psEx.pacing.peaks ++ [5] ∧
    (irregular_pacing_step envEx pePeak [] msEx psEx 5 yEx).2.1.pacing.apd_90_end_voltage =
      some (yEx 0 - abs (pePeak.avg_ap_start_voltage - yEx 0) * 0.9) :=
  ip_peak_detection_updates envEx pePeak [] msEx psEx 5 yEx rfl

/-- C7: under the irregular-pacing driver, when the detector signals APD90
at time `t`: if the offset sequence is exhausted the run continues without
error, no stimulation is scheduled and the cursor stays, while the APD90
time is still recorded; before exhaustion exactly one stimulation is
appended at `t + next_offset` and the cursor advances by one. -/
theorem ip_apd90_scheduling (env : Env) (pe : PacingEnv) (offs : List ℚ)
    (ms : ModelState) (ps : PacingState) (t : ℚ) (y : Fin 23 → ℚ)
    (h : pe.detect_apd_90
      (ip_after_peak pe ps.pacing (ms.t ++ [t])
        (ms.d_y_voltage ++
          [(action_potential_diff_eq env ms.default_parameters t y).getD 0 0])
        t (y 0)) (y 0) = true) :
    (offs.length ≤ ps.cursor →
      (irregular_pacing_step env pe offs ms ps t y).2.1.pacing.stimulations =
        ps.pacing.stimulations ∧
      (irregular_pacing_step env pe offs ms ps t y).2.1.pacing.apd_90s =
        ps.pacing.apd_90s ++ [t] ∧
      (irregular_pacing_step env pe offs ms ps t y).2.1.cursor =
        ps.cursor) ∧
    (∀ hlt : ps.cursor < offs.length,
      (irregular_pacing_step env pe offs ms ps t y).2.1.pacing.stimulations =
        ps.pacing.stimulations ++ [t + offs.get ⟨ps.cursor, hlt⟩] ∧
      (irregular_pacing_step env pe offs ms ps t y).2.1.pacing.apd_90s =
        ps.pacing.apd_90s ++ [t] ∧
      (irregular_pacing_step env pe offs ms ps t y).2.1.cursor =
        ps.cursor + 1) := by
  have hpre := ip_after_peak_preserves pe ps.pacing (ms.t ++ [t])
    (ms.d_y_voltage ++
      [(action_potential_diff_eq env ms.default_parameters t y).getD 0 0])
    t (y 0)
  have hpac : (irregular_pacing_step env pe offs ms ps t y).2.1.pacing =
      (ip_after_apd pe offs
        (ip_after_peak pe ps.pacing (ms.t ++ [t])
          (ms.d_y_voltage ++
            [(action_potential_diff_eq env ms.default_parameters t y).getD 0 0])
          t (y 0))
        ps.cursor t (y 0)).1 := rfl
  have hcur : (irregular_pacing_step env pe offs ms ps t y).2.1.cursor =
      (ip_after_apd pe offs
        (ip_after_peak pe ps.pacing (ms.t ++ [t])
          (ms.d_y_voltage ++
            [(action_potential_diff_eq env ms.default_parameters t y).getD 0 0])
          t (y 0))
        ps.cursor t (y 0)).2 := rfl
  constructor
  · intro hge
    rw [hpac, hcur, ip_after_apd_pos_exhausted pe offs _ ps.cursor t (y 0) h hge]
    exact ⟨hpre.2, by rw [hpre.1], rfl⟩
  · intro hlt
    rw [hpac, hcur, ip_after_apd_pos_take pe offs _ ps.cursor t (y 0) h hlt]
    exact ⟨by rw [hpre.2], by rw [hpre.1], rfl⟩

/-- C7 (witness): with a detector that signals APD90 and an already
exhausted (empty) offset sequence, one concrete step records the APD90
time, schedules nothing and leaves the cursor in place. -/
theorem ip_apd90_scheduling_witness :
    (irregular_pacing_step envEx peApd [] msEx psEx 7 yEx).2.1.pacing.stimulations =
      psEx.pacing.stimulations ∧
    (irregular_pacing_step envEx peApd [] msEx psEx 7 yEx).2.1.pacing.apd_90s =
      psEx.pacing.apd_90s ++ [7] ∧
    (irregular_pacing_step envEx peApd [] msEx psEx 7 yEx).2.1.cursor =
      psEx.cursor :=
  (ip_apd90_scheduling envEx peApd [] msEx psEx 7 yEx rfl).1 Nat.le.refl

/-- Looking up the key just assigned returns the assigned value. -/
theorem dict_lookup_set_self (d : Dict) (k : String) (v : ℚ) :
    dict_lookup (dict_set d k v) k = some v := by
  induction d with
  | nil => simp [dict_set, dict_lookup]
  | cons kv rest ih =>
      obtain ⟨k', v'⟩ := kv
      by_cases hk : k' = k
      · simp [dict_set, dict_lookup, hk]
      · simp [dict_set, dict_lookup, hk, ih]

/-- Assigning one key leaves the lookup of any other key unchanged. -/
theorem dict_lookup_set_ne (d : Dict) (k k' : String) (v : ℚ)
    (h : k' ≠ k) :
    dict_lookup (dict_set d k v) k' = dict_lookup d k' := by
  induction d with
  | nil => simp [dict_set, dict_lookup, Ne.symm h]
  | cons kv rest ih =>
      obtain ⟨k0, v0⟩ := kv
      by_cases hk : k0 = k
      · subst hk
        simp [dict_set, dict_lookup, Ne.symm h]
      · simp [dict_set, dict_lookup, hk, ih]

/-- A key that occurs nowhere in the dict looks up to `none`. -/
theorem dict_lookup_eq_none (d : Dict) (k : String)
    (h : k ∉ d.map Prod.fst) :
    dict_lookup d k = none := by
  induction d with
  | nil => simp [dict_lookup]
  | cons kv rest ih =>
      obtain ⟨k0, v0⟩ := kv
      simp only [List.map_cons, List.mem_cons, not_or] at h
      simp [dict_lookup, Ne.symm h.1, ih h.2]

/-- Lookup through `dict_update` when the update dict has no duplicate
keys: keys of the update dict win, all other keys fall through. -/
theorem dict_lookup_update_nodup (np : Dict) :
    ∀ (base : Dict) (k : String), (np.map Prod.fst).Nodup →
    dict_lookup (dict_update base np) k =
      match dict_lookup np k with
      | some v => some v
      | none => dict_lookup base k := by
  induction np with
  | nil => intro base k _; simp [dict_update, dict_lookup]
  | cons kv rest ih =>
      intro base k hnd
      obtain ⟨k0, v0⟩ := kv
      simp only [List.map_cons, List.nodup_cons] at hnd
      rw [show dict_update base ((k0, v0) :: rest) =
            dict_update (dict_set base k0 v0) rest from rfl,
        ih (dict_set base k0 v0) k hnd.2]
      by_cases hkk : k0 = k
      · subst hkk
        rw [dict_lookup_eq_none rest k0 hnd.1]
        simp [dict_lookup, dict_lookup_set_self]
      · cases hrk : dict_lookup rest k with
        | some v => simp [dict_lookup, hkk, hrk]
        | none =>
            simp [dict_lookup, hkk, hrk,
              dict_lookup_set_ne base k0 k v0 (fun hh => hkk hh.symm)]

/-- Assigning a fresh key appends the binding. -/
theorem dict_set_fresh (d : Dict) (k : String) (v : ℚ)
    (h : k ∉ d.map Prod.fst) :
    dict_set d k v = d ++ [(k, v)] := by
  induction d with
  | nil => simp [dict_set]
  | cons kv rest ih =>
      obtain ⟨k0, v0⟩ := kv
      simp only [List.map_cons, List.mem_cons, not_or] at h
      simp [dict_set, Ne.symm h.1, ih h.2]

/-- Folding `dict_set` over argument/parameter pairs whose names are fresh
and duplicate-free appends the corresponding bindings in order. -/
theorem foldl_dict_set_of_nodup (pairs : List (ℚ × Parameter)) :
    ∀ acc : Dict,
    ((acc.map Prod.fst) ++ pairs.map fun pt => pt.2.name).Nodup →
    List.foldl (fun a (pt : ℚ × Parameter) => dict_set a pt.2.name pt.1)
        acc pairs =
      acc ++ pairs.map (fun pt => (pt.2.name, pt.1)) := by
  induction pairs with
  | nil => intro acc _; simp
  | cons pt rest ih =>
      intro acc hnd
      have hfresh : pt.2.name ∉ acc.map Prod.fst := by
        intro hmem
        exact (List.nodup_append.mp hnd).2.2 hmem (by simp)
      rw [List.foldl_cons, dict_set_fresh acc pt.2.name pt.1 hfresh, ih]
      · simp
      · have : ((acc ++ [(pt.2.name, pt.1)]).map Prod.fst) ++
            (rest.map fun pt => pt.2.name) =
            (acc.map Prod.fst) ++
              ((pt :: rest).map fun pt => pt.2.name) := by
          simp
        rw [this]
        exact hnd

/-- Running `build_new_params` over lists with enough parameter descriptors is the
fold of `dict_set` over the zipped pairs. -/
theorem build_new_params_spec (ps : List ℚ) :
    ∀ (tps : List Parameter) (acc : Dict), ps.length ≤ tps.length →
    build_new_params ps tps acc =
      some (List.foldl
        (fun a (pt : ℚ × Parameter) => dict_set a pt.2.name pt.1)
        acc (ps.zip tps)) := by
  induction ps with
  | nil => intro tps acc _; simp [build_new_params]
  | cons p ps' ih =>
      intro tps acc h
      cases tps with
      | nil => simp at h
      | cons tp tps' =>
          simp only [List.length_cons, Nat.add_le_add_iff_right] at h
          simp [build_new_params, List.zip_cons_cons, ih tps' _ h]

/-- The names of zipped argument/parameter pairs are the parameter names,
when the lists have equal length. -/
theorem zip_pair_names (ps : List ℚ) :
    ∀ tps : List Parameter, ps.length = tps.length →
    ((ps.zip tps).map fun pt => pt.2.name) = tps.map Parameter.name := by
  induction ps with
  | nil =>
      intro tps h
      cases tps with
      | nil => simp
      | cons _ _ => simp at h
  | cons p ps' ih =>
      intro tps h
      cases tps with
      | nil => simp at h
      | cons tp tps' =>
          simp only [List.length_cons, Nat.add_right_cancel_iff] at h
          simp [List.zip_cons_cons, ih tps' h]

/-- The entry of the zipped name/value dict at index `i`. -/
theorem zip_pair_get (ps : List ℚ) :
    ∀ (tps : List Parameter) (i : ℕ) (hi : i < ps.length)
      (h : ps.length = tps.length)
      (hnp : i < (((ps.zip tps).map fun pt => (pt.2.name, pt.1))).length),
    ((ps.zip tps).map fun pt => (pt.2.name, pt.1)).get ⟨i, hnp⟩ =
      ((tps.get ⟨i, h ▸ hi⟩).name, ps.get ⟨i, hi⟩) := by
  induction ps with
  | nil => intro tps i hi h hnp; exact absurd hi (Nat.not_lt_zero i)
  | cons p ps' ih =>
      intro tps i hi h hnp
      cases tps with
      | nil => simp at h
      | cons tp tps' =>
          cases i with
          | zero => simp [List.zip_cons_cons]
          | succ n =>
              simp only [List.length_cons, Nat.add_right_cancel_iff] at h
              simp only [List.length_cons, Nat.succ_lt_succ_iff] at hi
              have hnp' : n <
                  (((ps'.zip tps').map fun pt => (pt.2.name, pt.1))).length := by
                simpa [List.zip_cons_cons] using hnp
              simp [List.zip_cons_cons, ih tps' n hi h hnp']

/-- With duplicate-free keys, looking up the key of entry `i` returns the
value of entry `i`. -/
theorem dict_lookup_get_nodup (np : Dict) :
    ∀ (i : ℕ) (hi : i < np.length), (np.map Prod.fst).Nodup →
    dict_lookup np (np.get ⟨i, hi⟩).1 = some (np.get ⟨i, hi⟩).2 := by
  induction np with
  | nil => intro i hi _; exact absurd hi (by simp)
  | cons kv rest ih =>
      intro i hi hnd
      obtain ⟨k0, v0⟩ := kv
      simp only [List.map_cons, List.nodup_cons] at hnd
      cases i with
      | zero => simp [dict_lookup]
      | succ n =>
          simp only [List.length_cons, Nat.succ_lt_succ_iff] at hi
          have hmem : (rest.get ⟨n, hi⟩).1 ∈ rest.map Prod.fst :=
            List.mem_map_of_mem Prod.fst (rest.get_mem _ _)
          have hne : ¬ k0 = (rest.get ⟨n, hi⟩).1 := by
            intro hh
            exact hnd.1 (hh ▸ hmem)
          show dict_lookup ((k0, v0) :: rest) (rest.get ⟨n, hi⟩).1 =
            some (rest.get ⟨n, hi⟩).2
          rw [show dict_lookup ((k0, v0) :: rest) (rest.get ⟨n, hi⟩).1 =
              if k0 = (rest.get ⟨n, hi⟩).1 then some v0
              else dict_lookup rest (rest.get ⟨n, hi⟩).1 from rfl,
            if_neg hne]
          exact ih n hi hnd.2

/-- C10: `generate_trace` applies parameter overrides only when both the
`params` list and the `tunable_parameters` list are present and non-empty,
in which case the model is built with the dict that assigns `params[i]` to
the name `tunable_parameters[i].name` for each `i` (stated here for
duplicate-free names and matching lengths): looking up
`tunable_parameters[i].name` in the resulting parameter dict yields
`params[i]`, every name outside the tunable names keeps its default value,
and when either argument is absent or empty the model runs with the
default parameter dict unchanged. -/
theorem generate_trace_parameter_application (integ : RunOutcome)
    (proto : Protocol) (tps : List Parameter) (ps : List ℚ) (i : ℕ)
    (k : String)
    (hlen : ps.length = tps.length)
    (hnd : (tps.map Parameter.name).Nodup)
    (hi : i < ps.length)
    (hk : k ∉ tps.map Parameter.name)
    (hne : ps ≠ []) :
    generate_trace integ proto none none =
      some (generate_response integ (paci_model_init []) proto) ∧
    generate_trace integ proto (some tps) none =
      some (generate_response integ (paci_model_init []) proto) ∧
    generate_trace integ proto none (some ps) =
      some (generate_response integ (paci_model_init []) proto) ∧
    generate_trace integ proto (some tps) (some []) =
      some (generate_response integ (paci_model_init []) proto) ∧
    generate_trace integ proto (some []) (some ps) =
      some (generate_response integ (paci_model_init []) proto) ∧
    (paci_model_init []).default_parameters = default_parameters ∧
    generate_trace integ proto (some tps) (some ps) =
      some (generate_response integ
        (paci_model_init ((ps.zip tps).map fun pt => (pt.2.name, pt.1)))
        proto) ∧
    dict_lookup (paci_model_init
        ((ps.zip tps).map fun pt => (pt.2.name, pt.1))).default_parameters
      (tps.get ⟨i, hlen ▸ hi⟩).name = some (ps.get ⟨i, hi⟩) ∧
    dict_lookup (paci_model_init
        ((ps.zip tps).map fun pt => (pt.2.name, pt.1))).default_parameters
      k = dict_lookup default_parameters k := by
  have htne : tps ≠ [] := by
    intro hh
    subst hh
    simp only [List.length_nil] at hlen
    exact hne (List.length_eq_zero.mp hlen)
  have hkeys : ((ps.zip tps).map fun pt => (pt.2.name, pt.1)).map Prod.fst =
      tps.map Parameter.name := by
    rw [List.map_map]
    exact zip_pair_names ps tps hlen
  have hndnp : ((((ps.zip tps).map fun pt =>
      (pt.2.name, pt.1))).map Prod.fst).Nodup := hkeys ▸ hnd
  have hlen_np : (((ps.zip tps).map fun pt =>
      (pt.2.name, pt.1))).length = ps.length := by
    simp [List.length_zip, hlen]
  have hnpv_ne : ((ps.zip tps).map fun pt => (pt.2.name, pt.1)) ≠ [] := by
    intro hh
    have := hlen_np
    rw [hh] at this
    exact hne (List.length_eq_zero.mp this.symm)
  have hbuild : build_new_params ps tps [] =
      some ((ps.zip tps).map fun pt => (pt.2.name, pt.1)) := by
    rw [build_new_params_spec ps tps [] (le_of_eq hlen)]
    have hndz : (([] : Dict).map Prod.fst ++
        ((ps.zip tps).map fun pt => pt.2.name)).Nodup := by
      rw [List.map_nil, List.nil_append, zip_pair_names ps tps hlen]
      exact hnd
    rw [foldl_dict_set_of_nodup (ps.zip tps) [] hndz]
    simp
  have hcond : (truthy (some ps) && truthy (some tps)) = true := by
    simp [truthy, hne, htne]
  have hmi : (paci_model_init
      ((ps.zip tps).map fun pt => (pt.2.name, pt.1))).default_parameters =
      dict_update default_parameters
        ((ps.zip tps).map fun pt => (pt.2.name, pt.1)) := by
    unfold paci_model_init
    rw [if_neg (by simp [hnpv_ne])]
  refine ⟨rfl, ?_, ?_, ?_, ?_, rfl, ?_, ?_, ?_⟩
  · simp [generate_trace, truthy]
  · simp [generate_trace, truthy]
  · simp [generate_trace, truthy]
  · simp [generate_trace, truthy]
  · unfold generate_trace
    rw [if_pos hcond]
    show (match build_new_params ps tps [] with
      | none => none
      | some np => some (generate_response integ (paci_model_init np) proto)) = _
    rw [hbuild]
  · rw [hmi, dict_lookup_update_nodup _ default_parameters _ hndnp]
    have hb : i < (((ps.zip tps).map fun pt =>
        (pt.2.name, pt.1))).length := hlen_np ▸ hi
    have key := dict_lookup_get_nodup
      ((ps.zip tps).map fun pt => (pt.2.name, pt.1)) i hb hndnp
    rw [zip_pair_get ps tps i hi hlen hb] at key
    rw [key]
  · rw [hmi, dict_lookup_update_nodup _ default_parameters _ hndnp]
    rw [dict_lookup_eq_none _ k (by rw [hkeys]; exact hk)]

/-- C10 (witness): with two named tunable parameters and two override
values, the built model's dict returns the second override for the second
name and the default for an untouched name. -/
theorem generate_trace_parameter_application_witness :
    generate_trace integOk (.singleActionPotential 1)
        (some tpsW) (some psW) =
      some (generate_response integOk
        (paci_model_init ((psW.zip tpsW).map fun pt => (pt.2.name, pt.1)))
        (.singleActionPotential 1)) ∧
    dict_lookup (paci_model_init
        ((psW.zip tpsW).map fun pt => (pt.2.name, pt.1))).default_parameters
      "g_kr_s" = some 200 ∧
    dict_lookup (paci_model_init
        ((psW.zip tpsW).map fun pt => (pt.2.name, pt.1))).default_parameters
      "g_ca_l" = dict_lookup default_parameters "g_ca_l" := by
  have h := generate_trace_parameter_application integOk
    (.singleActionPotential 1) tpsW psW 1 "g_ca_l" rfl
    (by simp [tpsW]) (by simp [psW]) (by simp [tpsW]) (by simp [psW])
  exact ⟨h.2.2.2.2.2.2.1, h.2.2.2.2.2.2.2.1, h.2.2.2.2.2.2.2.2⟩

end Paci2018
